import Mathlib

/-!
Shallow embedding of `src/faturamento_energia.py` (electricity billing core).

Modelling conventions:
* Python `float` arithmetic is modelled by exact rationals `ℚ`; decimal
  literals such as `0.75` denote the exact rational they print as.
* The sentinel `float('inf')` used as the upper bound of the last tariff
  bracket is modelled by `Option ℚ` (`none` = unbounded).
* Python dicts whose insertion order matters for iteration (`BANDEIRAS`,
  `IMPOSTOS`, the tax breakdown) are modelled as association lists in the
  same order.
* A Python `KeyError` raised by a dict subscript is modelled by
  `Except.error (ErroPython.keyError chave)`: the exception escapes
  `calcular_adicional_bandeira`, so its callers propagate the error.
* The builtin `float(str)` conversion called by `validar_numero_positivo`
  is modelled by `float_python`, covering CPython's finite decimal-literal
  grammar (optional surrounding whitespace, optional sign, digits with an
  optional decimal point and an optional exponent).  The special forms
  `inf`/`nan` and underscore digit separators are outside the ℚ model and
  are not exercised by any input considered here.
* Python string methods are re-implemented over `List Char` so that every
  definition evaluates by kernel reduction (`.replace(',', '.')` on a
  single character is a character map; `.lower()` on the ASCII tier names
  is an ASCII lowercase map).
-/

/-- Faixa de tarifação progressiva: `(inicio, fim, tarifa)` of the Python
tuple, with `fim = none` standing for `float('inf')`. -/
structure Faixa where
  inicio : ℚ
  fim : Option ℚ
  tarifa : ℚ
deriving DecidableEq

/-- The fixed progressive-rate table `TARIFAS_FAIXAS`. -/
def TARIFAS_FAIXAS : List Faixa :=
  [⟨0, some 100, 0.50⟩, ⟨100, some 200, 0.75⟩, ⟨200, some 500, 1.00⟩, ⟨500, none, 1.35⟩]

/-- The tier-name → surcharge-rate table `BANDEIRAS`, in insertion order. -/
def BANDEIRAS : List (String × ℚ) :=
  [("verde", 0.0), ("amarela", 0.05), ("vermelha", 0.10)]

/-- The tax-name → rate table `IMPOSTOS`, in insertion order. -/
def IMPOSTOS : List (String × ℚ) :=
  [("ICMS", 0.18), ("PIS", 0.0165), ("COFINS", 0.0761)]

/-- Python's `str.lower()` restricted to ASCII (the only strings it is
applied to here are tier names). -/
def pyLower (s : String) : String :=
  ⟨s.data.map Char.toLower⟩

/-- Replace every comma by a dot, as in `valor.replace(',', '.')` (a
single-character replace is a character map). -/
def trocaVirgulaPorPonto (s : String) : String :=
  ⟨s.data.map (fun c => if c = ',' then '.' else c)⟩

/-- Numeric value of a digit string (most significant first). -/
def valorDigitos (ds : List Char) : Nat :=
  ds.foldl (fun a c => 10 * a + (c.toNat - 48)) 0

/-- Syntactic pieces of a CPython decimal float literal. -/
structure DecimalLit where
  negativo : Bool
  inteira : List Char
  fracao : List Char
  expoente : Int
deriving DecidableEq

/-- Exponent digits: nonempty all-digit string. -/
def analisa_exp_digitos (cs : List Char) : Option Nat :=
  if cs.isEmpty then none
  else if cs.all Char.isDigit then some (valorDigitos cs) else none

/-- Exponent body: optional sign then digits. -/
def analisa_exp_corpo (cs : List Char) : Option Int :=
  match cs with
  | '+' :: ds => (analisa_exp_digitos ds).map (fun n => (n : Int))
  | '-' :: ds => (analisa_exp_digitos ds).map (fun n => -(n : Int))
  | ds => (analisa_exp_digitos ds).map (fun n => (n : Int))

/-- Optional exponent part: empty, or `e`/`E` followed by a signed digit
string; anything else is a parse error. -/
def analisa_expoente : List Char → Option Int
  | [] => some 0
  | 'e' :: resto => analisa_exp_corpo resto
  | 'E' :: resto => analisa_exp_corpo resto
  | _ => none

/-- Mantissa and exponent after the sign: digits with an optional decimal
point (at least one digit overall), then the optional exponent. -/
def analisa_corpo (neg : Bool) (cs : List Char) : Option DecimalLit :=
  let ip := cs.takeWhile Char.isDigit
  let r1 := cs.dropWhile Char.isDigit
  match r1 with
  | '.' :: r2 =>
    let fp := r2.takeWhile Char.isDigit
    let r3 := r2.dropWhile Char.isDigit
    if ip.isEmpty && fp.isEmpty then none
    else (analisa_expoente r3).map (fun e => ⟨neg, ip, fp, e⟩)
  | _ =>
    if ip.isEmpty then none
    else (analisa_expoente r1).map (fun e => ⟨neg, ip, [], e⟩)

/-- Full literal: strip surrounding whitespace, optional sign, body. -/
def analisa_decimal (s : String) : Option DecimalLit :=
  let cs := ((s.data.dropWhile Char.isWhitespace).reverse.dropWhile Char.isWhitespace).reverse
  match cs with
  | '+' :: resto => analisa_corpo false resto
  | '-' :: resto => analisa_corpo true resto
  | resto => analisa_corpo false resto

/-- Exact rational value of a parsed decimal literal. -/
def valor_decimal (d : DecimalLit) : ℚ :=
  (if d.negativo then -1 else 1) *
    ((valorDigitos d.inteira : ℚ) + (valorDigitos d.fracao : ℚ) / 10 ^ d.fracao.length) *
    10 ^ d.expoente

/-- Model of the builtin `float(s)` on finite decimal literals: `none`
models a raised `ValueError`. -/
def float_python (s : String) : Option ℚ :=
  (analisa_decimal s).map valor_decimal

/-- Validation of a numeric string: returns the triple
`(é_válido, valor_convertido, mensagem_erro)`. -/
def validar_numero_positivo (valor : String) : Bool × Option ℚ × String :=
  match float_python (trocaVirgulaPorPonto valor) with
  | some num =>
    if num < 0 then (false, none, "O valor deve ser positivo")
    else (true, some num, "")
  | none => (false, none, "Valor inválido. Digite um número válido")

/-- Validation of the tier name: returns `(é_válida, mensagem_erro)`;
membership in the `BANDEIRAS` dict after lowercasing. -/
def validar_bandeira (bandeira : String) : Bool × String :=
  if (List.lookup (pyLower bandeira) BANDEIRAS).isSome then (true, "")
  else (false, "Bandeira inválida. Use: " ++ String.intercalate ", " (BANDEIRAS.map Prod.fst))

/-- Validation of both inputs: returns `(sucesso, consumo_validado,
bandeira_validada, mensagem_erro)`; consumption first, short-circuiting. -/
def validar_entradas (consumo : String) (bandeira : String) : Bool × Option ℚ × String × String :=
  match validar_numero_positivo consumo with
  | (false, _, msg_consumo) => (false, none, "", msg_consumo)
  | (true, consumo_val, _) =>
    match validar_bandeira bandeira with
    | (false, msg_bandeira) => (false, none, "", msg_bandeira)
    | (true, _) => (true, consumo_val, pyLower bandeira, "")

/-- Cost of one bracket: returns `(kwh_usado, valor)`.  Here
`kwh_faixa = fim - inicio`, which is `float('inf')` for the unbounded
bracket, and `min consumo_restante inf = consumo_restante`. -/
def calcular_faixa (consumo_restante : ℚ) (faixa : Faixa) : ℚ × ℚ :=
  let kwh_usado :=
    match faixa.fim with
    | some fim => min consumo_restante (fim - faixa.inicio)
    | none => consumo_restante
  (kwh_usado, kwh_usado * faixa.tarifa)

/-- Python `int(q)` (truncation toward zero; applied only to the
non-negative integral bracket bounds). -/
def inteiro (q : ℚ) : Int :=
  Int.tdiv q.num (Int.ofNat q.den)

/-- The bracket label `f"{int(inicio)}-{int(fim) | '∞'} kWh"`. -/
def rotulo_faixa (faixa : Faixa) : String :=
  match faixa.fim with
  | some fim => toString (inteiro faixa.inicio) ++ "-" ++ toString (inteiro fim) ++ " kWh"
  | none => toString (inteiro faixa.inicio) ++ "-∞ kWh"

/-- One bracket line of the breakdown (the Python dict with keys
`faixa`, `kwh`, `tarifa`, `valor`). -/
structure ItemFaixa where
  faixa : String
  kwh : ℚ
  tarifa : ℚ
  valor : ℚ
deriving DecidableEq

/-- The `for faixa in TARIFAS_FAIXAS` loop of
`calcular_tarifacao_por_faixas`: break when the remaining consumption is
`≤ 0`, emit an item only when `kwh_usado > 0`, decrement and continue. -/
def percorre_faixas (consumo_restante : ℚ) : List Faixa → List ItemFaixa
  | [] => []
  | faixa :: resto =>
    if consumo_restante ≤ 0 then []
    else
      let r := calcular_faixa consumo_restante faixa
      let cauda := percorre_faixas (consumo_restante - r.1) resto
      if r.1 > 0 then ⟨rotulo_faixa faixa, r.1, faixa.tarifa, r.2⟩ :: cauda else cauda

/-- Progressive tariff breakdown `calcular_tarifacao_por_faixas`. -/
def calcular_tarifacao_por_faixas (consumo : ℚ) : List ItemFaixa :=
  percorre_faixas consumo TARIFAS_FAIXAS

/-- The runtime fault a dict subscript can raise. -/
inductive ErroPython where
  | keyError (chave : String)
deriving DecidableEq

/-- Tier surcharge `calcular_adicional_bandeira`: computes
`subtotal * BANDEIRAS[bandeira]`.  The subscript raises an (uncaught)
`KeyError` when the key is absent. -/
def calcular_adicional_bandeira (subtotal : ℚ) (bandeira : String) : Except ErroPython ℚ :=
  match List.lookup bandeira BANDEIRAS with
  | some taxa => Except.ok (subtotal * taxa)
  | none => Except.error (ErroPython.keyError bandeira)

/-- Individual tax `calcular_imposto`. -/
def calcular_imposto (base_calculo : ℚ) (aliquota : ℚ) : ℚ :=
  base_calculo * aliquota

/-- Tax breakdown `calcular_impostos`: one entry per tax, in the order of
`IMPOSTOS`. -/
def calcular_impostos (base_calculo : ℚ) : List (String × ℚ) :=
  IMPOSTOS.map (fun item => (item.1, calcular_imposto base_calculo item.2))

/-- The result dict of `calcular_faturamento`. -/
structure Resultado where
  consumo_kwh : ℚ
  bandeira : String
  faixas : List ItemFaixa
  subtotal_consumo : ℚ
  adicional_bandeira : ℚ
  base_impostos : ℚ
  impostos : List (String × ℚ)
  total_impostos : ℚ
  total_final : ℚ
deriving DecidableEq

/-- The orchestrator `calcular_faturamento`.  A `KeyError` raised inside
`calcular_adicional_bandeira` propagates. -/
def calcular_faturamento (consumo : ℚ) (bandeira : String) : Except ErroPython Resultado :=
  let faixas_detalhadas := calcular_tarifacao_por_faixas consumo
  let subtotal_consumo := faixas_detalhadas.foldl (fun acc faixa => acc + faixa.valor) 0
  match calcular_adicional_bandeira subtotal_consumo bandeira with
  | Except.error e => Except.error e
  | Except.ok adicional_bandeira =>
    let base_impostos := subtotal_consumo + adicional_bandeira
    let impostos_detalhados := calcular_impostos base_impostos
    let total_impostos := (impostos_detalhados.map Prod.snd).foldl (fun acc valor => acc + valor) 0
    let total_final := base_impostos + total_impostos
    Except.ok
      ⟨consumo, bandeira, faixas_detalhadas, subtotal_consumo, adicional_bandeira,
        base_impostos, impostos_detalhados, total_impostos, total_final⟩

/-- Invariant check `verificar_invariantes`: grand total non-negative and
the recomputed sum within `0.01` of it. -/
def verificar_invariantes (resultado : Resultado) : Bool :=
  if resultado.total_final < 0 then false
  else
    let soma_faixas := resultado.faixas.foldl (fun acc f => acc + f.valor) 0
    let recalculo := soma_faixas + resultado.adicional_bandeira + resultado.total_impostos
    let diferenca := |recalculo - resultado.total_final|
    decide (diferenca < 0.01)

/-! Helper definitions for the statements -/

/-- Sum of the `kwh` fields of a breakdown. -/
def somaKwh (itens : List ItemFaixa) : ℚ := (itens.map ItemFaixa.kwh).sum

/-- Sum of the `valor` fields of a breakdown. -/
def somaValor (itens : List ItemFaixa) : ℚ := (itens.map ItemFaixa.valor).sum

/-- A well-formed bracket: non-negative rate, upper bound (when present) at
least the lower bound. -/
def faixa_valida (f : Faixa) : Prop := 0 ≤ f.tarifa ∧ ∀ u ∈ f.fim, f.inicio ≤ u

/-- The last bracket of the list is unbounded. -/
def ultima_ilimitada : List Faixa → Prop
  | [] => False
  | [f] => f.fim = none
  | _ :: resto => ultima_ilimitada resto

/-! Generic fold lemmas -/

lemma foldl_soma {α : Type} (g : α → ℚ) :
    ∀ (l : List α) (c : ℚ), List.foldl (fun acc x => acc + g x) c l = c + (l.map g).sum := by
  intro l
  induction l with
  | nil => simp
  | cons x xs ih => intro c; simp [List.foldl, ih]; ring

/-! Facts about `calcular_faixa` -/

lemma calcular_faixa_snd (r : ℚ) (f : Faixa) :
    (calcular_faixa r f).2 = (calcular_faixa r f).1 * f.tarifa := by
  cases hf : f.fim <;> simp [calcular_faixa, hf]

lemma calcular_faixa_fst_le (r : ℚ) (f : Faixa) : (calcular_faixa r f).1 ≤ r := by
  cases hf : f.fim <;> simp [calcular_faixa, hf]

lemma calcular_faixa_fst_nonneg (r : ℚ) (f : Faixa) (hr : 0 ≤ r) (hf : faixa_valida f) :
    0 ≤ (calcular_faixa r f).1 := by
  cases hfim : f.fim with
  | none => simpa [calcular_faixa, hfim] using hr
  | some u =>
    have hw : f.inicio ≤ u := hf.2 u hfim
    simp [calcular_faixa, hfim]
    exact ⟨hr, by linarith⟩

/-! Unfolding `percorre_faixas` -/

lemma percorre_cons (r : ℚ) (f : Faixa) (fs : List Faixa) :
    percorre_faixas r (f :: fs) =
      if r ≤ 0 then []
      else if (calcular_faixa r f).1 > 0 then
        ⟨rotulo_faixa f, (calcular_faixa r f).1, f.tarifa, (calcular_faixa r f).2⟩ ::
          percorre_faixas (r - (calcular_faixa r f).1) fs
      else percorre_faixas (r - (calcular_faixa r f).1) fs := rfl

lemma somaValor_percorre_cons (r : ℚ) (f : Faixa) (fs : List Faixa) (hr : ¬ r ≤ 0) :
    somaValor (percorre_faixas r (f :: fs)) =
      (if (calcular_faixa r f).1 > 0 then (calcular_faixa r f).2 else 0)
        + somaValor (percorre_faixas (r - (calcular_faixa r f).1) fs) := by
  rw [percorre_cons]
  split_ifs <;> simp_all [somaValor]

lemma somaKwh_percorre_cons (r : ℚ) (f : Faixa) (fs : List Faixa) (hr : ¬ r ≤ 0) :
    somaKwh (percorre_faixas r (f :: fs)) =
      (if (calcular_faixa r f).1 > 0 then (calcular_faixa r f).1 else 0)
        + somaKwh (percorre_faixas (r - (calcular_faixa r f).1) fs) := by
  rw [percorre_cons]
  split_ifs <;> simp_all [somaKwh]

/-! Structural properties of the breakdown -/

lemma percorre_kwh_pos : ∀ (fs : List Faixa) (r : ℚ), ∀ it ∈ percorre_faixas r fs, 0 < it.kwh := by
  intro fs
  induction fs with
  | nil => intro r it hit; simp [percorre_faixas] at hit
  | cons f fs ih =>
    intro r it hit
    rw [percorre_cons] at hit
    split_ifs at hit with h1 h2
    · simp at hit
    · rcases List.mem_cons.mp hit with h | h
      · rw [h]; exact h2
      · exact ih _ _ h
    · exact ih _ _ hit

lemma somaValor_nonneg : ∀ (fs : List Faixa), (∀ f ∈ fs, 0 ≤ f.tarifa) →
    ∀ (r : ℚ), 0 ≤ somaValor (percorre_faixas r fs) := by
  intro fs
  induction fs with
  | nil => intro _ r; simp [percorre_faixas, somaValor]
  | cons f fs ih =>
    intro h r
    by_cases hr : r ≤ 0
    · simp [percorre_cons, hr, somaValor]
    · rw [somaValor_percorre_cons r f fs hr]
      have h1 := ih (fun g hg => h g (List.mem_cons_of_mem f hg)) (r - (calcular_faixa r f).1)
      have h2 : 0 ≤ (if (calcular_faixa r f).1 > 0 then (calcular_faixa r f).2 else 0) := by
        split_ifs with hu
        · rw [calcular_faixa_snd]
          exact mul_nonneg (le_of_lt hu) (h f (List.mem_cons_self f fs))
        · exact le_refl 0
      linarith

lemma somaKwh_percorre : ∀ (fs : List Faixa), (∀ f ∈ fs, faixa_valida f) → ultima_ilimitada fs →
    ∀ (r : ℚ), 0 ≤ r → somaKwh (percorre_faixas r fs) = r := by
  intro fs
  induction fs with
  | nil => intro _ hu; exact absurd hu (by simp [ultima_ilimitada])
  | cons f fs ih =>
    intro hv hu r hr
    rcases eq_or_lt_of_le hr with h0 | hpos
    · rw [← h0]; simp [percorre_cons, somaKwh]
    · have hnot : ¬ r ≤ 0 := not_le.mpr hpos
      have hle : (calcular_faixa r f).1 ≤ r := calcular_faixa_fst_le r f
      have hnn : 0 ≤ (calcular_faixa r f).1 :=
        calcular_faixa_fst_nonneg r f hr (hv f (List.mem_cons_self f fs))
      cases fs with
      | nil =>
        have hfim : f.fim = none := hu
        simp [percorre_cons, hnot, calcular_faixa, hfim, somaKwh, hpos, percorre_faixas]
      | cons g gs =>
        have hu2 : ultima_ilimitada (g :: gs) := hu
        have hrec : somaKwh (percorre_faixas (r - (calcular_faixa r f).1) (g :: gs))
            = r - (calcular_faixa r f).1 :=
          ih (fun x hx => hv x (List.mem_cons_of_mem _ hx)) hu2 _ (by linarith)
        rw [somaKwh_percorre_cons r f _ hnot, hrec]
        split_ifs with hp
        · ring
        · have h0u : (calcular_faixa r f).1 = 0 := le_antisymm (not_lt.mp hp) hnn
          rw [h0u]; ring

lemma somaValor_mono : ∀ (fs : List Faixa), (∀ f ∈ fs, faixa_valida f) →
    ∀ (r1 r2 : ℚ), 0 ≤ r1 → r1 ≤ r2 →
      somaValor (percorre_faixas r1 fs) ≤ somaValor (percorre_faixas r2 fs) := by
  intro fs
  induction fs with
  | nil => intros; simp [percorre_faixas]
  | cons f fs ih =>
    intro hv r1 r2 h1 h12
    by_cases hr1 : r1 ≤ 0
    · have l0 : somaValor (percorre_faixas r1 (f :: fs)) = 0 := by
        have : r1 = 0 := le_antisymm hr1 h1
        rw [this]; simp [percorre_cons, somaValor]
      rw [l0]
      exact somaValor_nonneg (f :: fs) (fun g hg => (hv g hg).1) r2
    · have hr2 : ¬ r2 ≤ 0 := fun h => hr1 (le_trans h12 h)
      have hf := hv f (List.mem_cons_self f fs)
      have key1 : (calcular_faixa r1 f).1 ≤ (calcular_faixa r2 f).1 := by
        cases hfim : f.fim with
        | none => simpa [calcular_faixa, hfim] using h12
        | some u =>
          simp only [calcular_faixa, hfim]
          exact min_le_min h12 (le_refl _)
      have key2 : r1 - (calcular_faixa r1 f).1 ≤ r2 - (calcular_faixa r2 f).1 := by
        cases hfim : f.fim with
        | none => simp [calcular_faixa, hfim]
        | some u =>
          simp only [calcular_faixa, hfim]
          rcases le_total r1 (u - f.inicio) with h | h <;>
            rcases le_total r2 (u - f.inicio) with h2 | h2 <;>
              simp [min_eq_left, min_eq_right, h, h2] <;> linarith
      have key3 : 0 ≤ r1 - (calcular_faixa r1 f).1 := by
        have := calcular_faixa_fst_le r1 f; linarith
      have tail := ih (fun g hg => hv g (List.mem_cons_of_mem _ hg)) _ _ key3 key2
      rw [somaValor_percorre_cons _ _ _ hr1, somaValor_percorre_cons _ _ _ hr2]
      have hcontrib : (if (calcular_faixa r1 f).1 > 0 then (calcular_faixa r1 f).2 else 0)
          ≤ (if (calcular_faixa r2 f).1 > 0 then (calcular_faixa r2 f).2 else 0) := by
        rw [calcular_faixa_snd, calcular_faixa_snd]
        split_ifs with p1 p2 p2
        · exact mul_le_mul_of_nonneg_right key1 hf.1
        · exact absurd (lt_of_lt_of_le p1 key1) p2
        · exact mul_nonneg (le_of_lt p2) hf.1
        · exact le_refl 0
      linarith

/-! Facts about the fixed tables -/

lemma tarifas_validas : ∀ f ∈ TARIFAS_FAIXAS, faixa_valida f := by
  intro f hf
  simp only [TARIFAS_FAIXAS, List.mem_cons, List.not_mem_nil, or_false] at hf
  rcases hf with h | h | h | h <;> subst h <;>
    refine ⟨by norm_num, fun u hu => ?_⟩ <;>
    simp only [Option.mem_def, Option.some.injEq] at hu <;>
    first
      | (subst hu; norm_num)
      | exact absurd hu (by simp)

lemma tarifas_ultima : ultima_ilimitada TARIFAS_FAIXAS := rfl

lemma lookup_bandeiras_none (b : String)
    (h1 : b ≠ "verde") (h2 : b ≠ "amarela") (h3 : b ≠ "vermelha") :
    List.lookup b BANDEIRAS = none := by
  have e1 : (b == "verde") = false := by simp [h1]
  have e2 : (b == "amarela") = false := by simp [h2]
  have e3 : (b == "vermelha") = false := by simp [h3]
  simp [BANDEIRAS, List.lookup, e1, e2, e3]

lemma lookup_bandeiras_cases (b : String) (t : ℚ) (h : List.lookup b BANDEIRAS = some t) :
    (b = "verde" ∧ t = 0.0) ∨ (b = "amarela" ∧ t = 0.05) ∨ (b = "vermelha" ∧ t = 0.10) := by
  by_cases e1 : b = "verde"
  · subst e1
    rw [show List.lookup "verde" BANDEIRAS = some 0.0 from rfl] at h
    exact Or.inl ⟨rfl, by simpa using h.symm⟩
  by_cases e2 : b = "amarela"
  · subst e2
    rw [show List.lookup "amarela" BANDEIRAS = some 0.05 from rfl] at h
    exact Or.inr (Or.inl ⟨rfl, by simpa using h.symm⟩)
  by_cases e3 : b = "vermelha"
  · subst e3
    rw [show List.lookup "vermelha" BANDEIRAS = some 0.10 from rfl] at h
    exact Or.inr (Or.inr ⟨rfl, by simpa using h.symm⟩)
  · rw [lookup_bandeiras_none b e1 e2 e3] at h
    exact absurd h (by simp)

lemma lookup_bandeiras_nonneg (b : String) (t : ℚ) (h : List.lookup b BANDEIRAS = some t) :
    0 ≤ t := by
  rcases lookup_bandeiras_cases b t h with ⟨_, ht⟩ | ⟨_, ht⟩ | ⟨_, ht⟩ <;> rw [ht] <;> norm_num

/-! Closed form of the orchestrator on a valid tier -/

lemma faturamento_eq (c : ℚ) (b : String) (t : ℚ) (ht : List.lookup b BANDEIRAS = some t) :
    calcular_faturamento c b =
      Except.ok
        { consumo_kwh := c
          bandeira := b
          faixas := calcular_tarifacao_por_faixas c
          subtotal_consumo := somaValor (calcular_tarifacao_por_faixas c)
          adicional_bandeira := somaValor (calcular_tarifacao_por_faixas c) * t
          base_impostos := somaValor (calcular_tarifacao_por_faixas c)
            + somaValor (calcular_tarifacao_por_faixas c) * t
          impostos := calcular_impostos (somaValor (calcular_tarifacao_por_faixas c)
            + somaValor (calcular_tarifacao_por_faixas c) * t)
          total_impostos := (somaValor (calcular_tarifacao_por_faixas c)
            + somaValor (calcular_tarifacao_por_faixas c) * t) * 0.2726
          total_final := (somaValor (calcular_tarifacao_por_faixas c)
            + somaValor (calcular_tarifacao_por_faixas c) * t) * 1.2726 } := by
  have hsub : List.foldl (fun acc faixa => acc + faixa.valor) 0 (calcular_tarifacao_por_faixas c)
      = somaValor (calcular_tarifacao_por_faixas c) := by
    rw [foldl_soma]; simp [somaValor]
  have himp : ∀ base : ℚ,
      List.foldl (fun acc valor => acc + valor) 0 ((calcular_impostos base).map Prod.snd)
        = base * 0.2726 := by
    intro base
    simp [calcular_impostos, IMPOSTOS, calcular_imposto, List.foldl]
    ring
  simp only [calcular_faturamento, calcular_adicional_bandeira, ht, hsub, himp,
    Except.ok.injEq, Resultado.mk.injEq, and_true, true_and]
  ring

/-! The invariant checker succeeds on consistent results -/

lemma verificar_eq_true (r : Resultado) (h0 : 0 ≤ r.total_final)
    (hsum : List.foldl (fun acc f => acc + f.valor) 0 r.faixas
      + r.adicional_bandeira + r.total_impostos = r.total_final) :
    verificar_invariantes r = true := by
  simp only [verificar_invariantes, if_neg (not_lt.mpr h0), hsum]
  simp only [sub_self, abs_zero, decide_eq_true_eq]
  norm_num

/-! Concrete evaluations -/

lemma rotulo_0_100 (t : ℚ) : rotulo_faixa ⟨0, some 100, t⟩ = "0-100 kWh" := by
  show toString (inteiro (0 : ℚ)) ++ "-" ++ toString (inteiro (100 : ℚ)) ++ " kWh" = _
  rfl

lemma rotulo_100_200 (t : ℚ) : rotulo_faixa ⟨100, some 200, t⟩ = "100-200 kWh" := by
  show toString (inteiro (100 : ℚ)) ++ "-" ++ toString (inteiro (200 : ℚ)) ++ " kWh" = _
  rfl

lemma rotulo_200_500 (t : ℚ) : rotulo_faixa ⟨200, some 500, t⟩ = "200-500 kWh" := by
  show toString (inteiro (200 : ℚ)) ++ "-" ++ toString (inteiro (500 : ℚ)) ++ " kWh" = _
  rfl

/-- The worked end-to-end scenario: 250 kWh on the green tier. -/
lemma faturamento_250_verde : calcular_faturamento 250 "verde" =
    Except.ok ⟨250, "verde",
      [⟨"0-100 kWh", 100, 0.50, 50⟩, ⟨"100-200 kWh", 100, 0.75, 75⟩, ⟨"200-500 kWh", 50, 1.00, 50⟩],
      175, 0, 175, [("ICMS", 31.5), ("PIS", 2.8875), ("COFINS", 13.3175)], 47.705, 222.705⟩ := by
  norm_num [calcular_faturamento, calcular_tarifacao_por_faixas, percorre_faixas, TARIFAS_FAIXAS,
    calcular_faixa, min_def, calcular_adicional_bandeira, BANDEIRAS, List.lookup,
    calcular_impostos, calcular_imposto, IMPOSTOS, rotulo_0_100, rotulo_100_200, rotulo_200_500]

/-- Zero consumption on the green tier. -/
lemma faturamento_0_verde : calcular_faturamento 0 "verde" =
    Except.ok ⟨0, "verde", [], 0, 0, 0, [("ICMS", 0), ("PIS", 0), ("COFINS", 0)], 0, 0⟩ := by
  norm_num [calcular_faturamento, calcular_tarifacao_por_faixas, percorre_faixas, TARIFAS_FAIXAS,
    calcular_adicional_bandeira, BANDEIRAS, List.lookup,
    calcular_impostos, calcular_imposto, IMPOSTOS]

/-! Evaluating the validator on concrete strings -/

lemma vnp_eval (s : String) (d : DecimalLit)
    (hd : analisa_decimal (trocaVirgulaPorPonto s) = some d) (v : ℚ) (hv : valor_decimal d = v) :
    validar_numero_positivo s =
      (if v < 0 then (false, none, "O valor deve ser positivo") else (true, some v, "")) := by
  simp [validar_numero_positivo, float_python, hd, hv]

lemma vnp_150_virgula : validar_numero_positivo "150,5" = (true, some 150.5, "") := by
  rw [vnp_eval "150,5" ⟨false, ['1', '5', '0'], ['5'], 0⟩ rfl 150.5 (by
    norm_num [valor_decimal, show valorDigitos ['1', '5', '0'] = 150 from rfl,
      show valorDigitos ['5'] = 5 from rfl])]
  norm_num

lemma vnp_150_ponto : validar_numero_positivo "150.5" = (true, some 150.5, "") := by
  rw [vnp_eval "150.5" ⟨false, ['1', '5', '0'], ['5'], 0⟩ rfl 150.5 (by
    norm_num [valor_decimal, show valorDigitos ['1', '5', '0'] = 150 from rfl,
      show valorDigitos ['5'] = 5 from rfl])]
  norm_num

lemma vnp_menos5 : validar_numero_positivo "-5" = (false, none, "O valor deve ser positivo") := by
  rw [vnp_eval "-5" ⟨true, ['5'], [], 0⟩ rfl (-5) (by
    norm_num [valor_decimal, show valorDigitos ['5'] = 5 from rfl,
      show valorDigitos ([] : List Char) = 0 from rfl])]
  norm_num

lemma vnp_abc : validar_numero_positivo "abc"
    = (false, none, "Valor inválido. Digite um número válido") := by
  simp [validar_numero_positivo, float_python,
    show analisa_decimal (trocaVirgulaPorPonto "abc") = none from rfl]

lemma vnp_1000 : validar_numero_positivo "1,000" = (true, some 1, "") := by
  rw [vnp_eval "1,000" ⟨false, ['1'], ['0', '0', '0'], 0⟩ rfl 1 (by
    norm_num [valor_decimal, show valorDigitos ['1'] = 1 from rfl,
      show valorDigitos ['0', '0', '0'] = 0 from rfl])]
  norm_num

lemma vnp_123 : validar_numero_positivo "1,2,3"
    = (false, none, "Valor inválido. Digite um número válido") := by
  simp [validar_numero_positivo, float_python,
    show analisa_decimal (trocaVirgulaPorPonto "1,2,3") = none from rfl]

lemma vnp_10 : validar_numero_positivo "10" = (true, some 10, "") := by
  rw [vnp_eval "10" ⟨false, ['1', '0'], [], 0⟩ rfl 10 (by
    norm_num [valor_decimal, show valorDigitos ['1', '0'] = 10 from rfl,
      show valorDigitos ([] : List Char) = 0 from rfl])]
  norm_num

/-- Whenever the validator reports a converted value, the flag is set, the
message empty and the value non-negative. -/
lemma vnp_sucesso (s : String) (b : Bool) (v : ℚ) (m : String)
    (h : validar_numero_positivo s = (b, some v, m)) : b = true ∧ 0 ≤ v ∧ m = "" := by
  unfold validar_numero_positivo at h
  cases hf : float_python (trocaVirgulaPorPonto s) with
  | none => rw [hf] at h; simp at h
  | some num =>
    rw [hf] at h
    dsimp only at h
    split_ifs at h with hneg
    · simp at h
    · simp only [Prod.mk.injEq, Option.some.injEq] at h
      obtain ⟨hb, hv, hm⟩ := h
      exact ⟨hb.symm, by rw [← hv]; exact not_lt.mp hneg, hm.symm⟩

/-- Replacing commas by dots is idempotent. -/
lemma troca_idem (s : String) :
    trocaVirgulaPorPonto (trocaVirgulaPorPonto s) = trocaVirgulaPorPonto s := by
  simp only [trocaVirgulaPorPonto, List.map_map]
  refine congrArg _ ?_
  induction s.data with
  | nil => rfl
  | cons c cs ih =>
    simp only [List.map, Function.comp, ih, List.cons.injEq, and_true]
    by_cases hc : c = ',' <;> simp [hc]

/-! Tier lookup vs membership -/

lemma lookup_isSome_iff_mem (b : String) :
    (List.lookup b BANDEIRAS).isSome = true ↔ b ∈ BANDEIRAS.map Prod.fst := by
  by_cases e1 : b = "verde"
  · subst e1; simp [BANDEIRAS]
  by_cases e2 : b = "amarela"
  · subst e2; simp [BANDEIRAS]
  by_cases e3 : b = "vermelha"
  · subst e3; simp [BANDEIRAS]
  · rw [lookup_bandeiras_none b e1 e2 e3]; simp [BANDEIRAS, e1, e2, e3]

lemma validar_bandeira_vermelha_maiuscula : validar_bandeira "VERMELHA" = (true, "") := rfl

/-! Named concrete results used by the scenario theorems -/

/-- The `BillResult` for 250 kWh on the green tier. -/
def resultado_250_verde : Resultado :=
  ⟨250, "verde",
    [⟨"0-100 kWh", 100, 0.50, 50⟩, ⟨"100-200 kWh", 100, 0.75, 75⟩, ⟨"200-500 kWh", 50, 1.00, 50⟩],
    175, 0, 175, [("ICMS", 31.5), ("PIS", 2.8875), ("COFINS", 13.3175)], 47.705, 222.705⟩

/-- The `BillResult` for 0 kWh on the green tier. -/
def resultado_0_verde : Resultado :=
  ⟨0, "verde", [], 0, 0, 0, [("ICMS", 0), ("PIS", 0), ("COFINS", 0)], 0, 0⟩

lemma faturamento_250_verde_nomeado :
    calcular_faturamento 250 "verde" = Except.ok resultado_250_verde := faturamento_250_verde

lemma faturamento_0_verde_nomeado :
    calcular_faturamento 0 "verde" = Except.ok resultado_0_verde := faturamento_0_verde

/-! Claim theorems -/

/-- C1: for every consumption `c ≥ 0` and every tier of the fixed tier set,
`verificar_invariantes` applied to the result of `calcular_faturamento`
returns `true` (the grand total is non-negative and the recomputed sum of
line-item amounts, surcharge and total tax is within `0.01` of it — here
it agrees exactly). -/
theorem invariantes_sempre_validos (c : ℚ) (b : String) (t : ℚ) (r : Resultado)
    (_hc : 0 ≤ c) (ht : List.lookup b BANDEIRAS = some t)
    (hr : calcular_faturamento c b = Except.ok r) :
    verificar_invariantes r = true := by
  rw [faturamento_eq c b t ht] at hr
  injection hr with hr
  subst hr
  have hs : 0 ≤ somaValor (calcular_tarifacao_por_faixas c) := by
    unfold calcular_tarifacao_por_faixas
    exact somaValor_nonneg TARIFAS_FAIXAS (fun f hf => (tarifas_validas f hf).1) c
  have htn : 0 ≤ t := lookup_bandeiras_nonneg b t ht
  have hbase : 0 ≤ somaValor (calcular_tarifacao_por_faixas c)
      + somaValor (calcular_tarifacao_por_faixas c) * t := by
    have := mul_nonneg hs htn
    linarith
  apply verificar_eq_true <;> dsimp only
  · exact mul_nonneg hbase (by norm_num)
  · rw [foldl_soma]
    simp only [somaValor]
    ring

theorem invariantes_sempre_validos_aplicacao :
    verificar_invariantes resultado_250_verde = true :=
  invariantes_sempre_validos 250 "verde" 0.0 resultado_250_verde (by norm_num) rfl
    faturamento_250_verde_nomeado

/-- C2: the worked scenario — 250 kWh on tier `"verde"` yields exactly the
three bracket line items 50.00, 75.00 and 50.00, subtotal 175.00,
surcharge 0, tax base 175.00, ICMS 31.50, PIS 2.8875, COFINS 13.3175,
total tax 47.705 and grand total 222.705. -/
theorem cenario_250_verde : calcular_faturamento 250 "verde" =
    Except.ok ⟨250, "verde",
      [⟨"0-100 kWh", 100, 0.50, 50⟩, ⟨"100-200 kWh", 100, 0.75, 75⟩, ⟨"200-500 kWh", 50, 1.00, 50⟩],
      175, 0, 175, [("ICMS", 31.5), ("PIS", 2.8875), ("COFINS", 13.3175)], 47.705, 222.705⟩ :=
  faturamento_250_verde

/-- C3: for every consumption `c ≥ 0` the `kwh` fields of the bracket
breakdown sum to exactly `c`, every emitted item has strictly positive
`kwh`, and the breakdown for `c = 0` is empty. -/
theorem tarifacao_soma_e_positividade :
    (∀ c : ℚ, 0 ≤ c → somaKwh (calcular_tarifacao_por_faixas c) = c
      ∧ ∀ it ∈ calcular_tarifacao_por_faixas c, 0 < it.kwh)
    ∧ calcular_tarifacao_por_faixas 0 = [] := by
  refine ⟨fun c hc => ⟨?_, fun it hit => percorre_kwh_pos TARIFAS_FAIXAS c it hit⟩, rfl⟩
  unfold calcular_tarifacao_por_faixas
  exact somaKwh_percorre TARIFAS_FAIXAS tarifas_validas tarifas_ultima c hc

theorem tarifacao_soma_e_positividade_aplicacao :
    somaKwh (calcular_tarifacao_por_faixas 250) = 250 :=
  (tarifacao_soma_e_positividade.1 250 (by norm_num)).1

/-- C4, counterexample: on the table's first bracket the claim fails for
`remaining = -1 ≤ 0`: `calcular_faixa` returns `used = -1` (not 0, and
negative) and `amount = -0.50` (negative). -/
theorem calcular_faixa_contraexemplo :
    TARIFAS_FAIXAS.head? = some ⟨0, some 100, 0.50⟩
    ∧ calcular_faixa (-1) ⟨0, some 100, 0.50⟩ = (-1, -0.50)
    ∧ ((-1 : ℚ) ≤ 0 ∧ ((-1 : ℚ) ≠ 0 ∧ ¬ (0 : ℚ) ≤ -1)) := by
  refine ⟨rfl, ?_, by norm_num⟩
  norm_num [calcular_faixa, min_def]

/-- C4, amended: for every bracket of the fixed table and every
`remaining ≥ 0`, `calcular_faixa` returns `used = min remaining width`
(`used = remaining` for the unbounded bracket) and `amount = used * rate`,
both non-negative, and `used = 0` when `remaining = 0`. -/
theorem calcular_faixa_corrigido (f : Faixa) (hf : f ∈ TARIFAS_FAIXAS) (r : ℚ) (hr : 0 ≤ r) :
    (∀ u, f.fim = some u → (calcular_faixa r f).1 = min r (u - f.inicio))
    ∧ (f.fim = none → (calcular_faixa r f).1 = r)
    ∧ (calcular_faixa r f).2 = (calcular_faixa r f).1 * f.tarifa
    ∧ 0 ≤ (calcular_faixa r f).1 ∧ 0 ≤ (calcular_faixa r f).2
    ∧ (r = 0 → (calcular_faixa r f).1 = 0) := by
  have hv := tarifas_validas f hf
  refine ⟨fun u hu => by simp [calcular_faixa, hu], fun hu => by simp [calcular_faixa, hu],
    calcular_faixa_snd r f, calcular_faixa_fst_nonneg r f hr hv, ?_, ?_⟩
  · rw [calcular_faixa_snd]
    exact mul_nonneg (calcular_faixa_fst_nonneg r f hr hv) hv.1
  · intro h0
    subst h0
    cases hfim : f.fim with
    | none => simp [calcular_faixa, hfim]
    | some u =>
      have hw : f.inicio ≤ u := hv.2 u hfim
      simp only [calcular_faixa, hfim]
      exact min_eq_left (by linarith)

theorem calcular_faixa_corrigido_aplicacao :
    0 ≤ (calcular_faixa 30 ⟨0, some 100, 0.50⟩).1 :=
  (calcular_faixa_corrigido ⟨0, some 100, 0.50⟩ (List.mem_cons_self _ _) 30
    (by norm_num)).2.2.2.1

/-- C5, counterexample: for the out-of-set tier `"azul"` the dict
subscript in `calcular_adicional_bandeira` raises an uncaught `KeyError`
(modelled by `ErroPython.keyError`): the function does not return a
structured `UnknownTier` validation failure, it crashes. -/
theorem adicional_bandeira_contraexemplo :
    calcular_adicional_bandeira 100 "azul" = Except.error (ErroPython.keyError "azul") := rfl

/-- C5, amended: for every tier of the fixed set the surcharge is exactly
`subtotal * rate`; for every tier outside the set the lookup raises an
uncaught `KeyError` naming the tier. -/
theorem adicional_bandeira_corrigido :
    (∀ (s : ℚ) (b : String) (t : ℚ), List.lookup b BANDEIRAS = some t →
      calcular_adicional_bandeira s b = Except.ok (s * t))
    ∧ (∀ (s : ℚ) (b : String), List.lookup b BANDEIRAS = none →
      calcular_adicional_bandeira s b = Except.error (ErroPython.keyError b)) := by
  constructor
  · intro s b t ht; simp [calcular_adicional_bandeira, ht]
  · intro s b h; simp [calcular_adicional_bandeira, h]

theorem adicional_bandeira_corrigido_aplicacao :
    calcular_adicional_bandeira 175 "verde" = Except.ok (175 * 0.0) :=
  adicional_bandeira_corrigido.1 175 "verde" 0.0 rfl

/-- C6: the consumption parser accepts both `','` and `'.'` as decimal
separator (`"150,5"` and `"150.5"` both give 150.5), rejects
non-numeric input with the invalid-format message (`"abc"`), rejects
negative values with the negativity message (`"-5"`), and whenever it
reports a converted value the value is non-negative, the flag true and
the message empty. -/
theorem validar_numero_comportamento :
    validar_numero_positivo "150,5" = (true, some 150.5, "")
    ∧ validar_numero_positivo "150.5" = (true, some 150.5, "")
    ∧ validar_numero_positivo "abc" = (false, none, "Valor inválido. Digite um número válido")
    ∧ validar_numero_positivo "-5" = (false, none, "O valor deve ser positivo")
    ∧ ∀ (s : String) (b : Bool) (v : ℚ) (m : String),
        validar_numero_positivo s = (b, some v, m) → b = true ∧ 0 ≤ v ∧ m = "" :=
  ⟨vnp_150_virgula, vnp_150_ponto, vnp_abc, vnp_menos5, vnp_sucesso⟩

theorem validar_numero_comportamento_aplicacao :
    true = true ∧ (0 : ℚ) ≤ 150.5 ∧ "" = "" :=
  validar_numero_comportamento.2.2.2.2 "150,5" true 150.5 "" vnp_150_virgula

/-- C7: tier validation matches case-insensitively (lowercasing the raw
string and testing membership in the fixed set), produces on failure the
message enumerating all valid tier names, and `"VERMELHA"` validates and
normalizes to `"vermelha"` through `validar_entradas`. -/
theorem validar_bandeira_comportamento :
    (∀ b : String, pyLower b ∈ BANDEIRAS.map Prod.fst → validar_bandeira b = (true, ""))
    ∧ (∀ b : String, pyLower b ∉ BANDEIRAS.map Prod.fst →
        validar_bandeira b = (false, "Bandeira inválida. Use: verde, amarela, vermelha"))
    ∧ validar_entradas "10" "VERMELHA" = (true, some 10, "vermelha", "") := by
  refine ⟨fun b hb => ?_, fun b hb => ?_, ?_⟩
  · rw [validar_bandeira, if_pos ((lookup_isSome_iff_mem (pyLower b)).mpr hb)]
  · rw [validar_bandeira,
      if_neg (fun h => hb ((lookup_isSome_iff_mem (pyLower b)).mp h))]
    rfl
  · simp [validar_entradas, vnp_10, validar_bandeira_vermelha_maiuscula,
      show pyLower "VERMELHA" = "vermelha" from rfl]

theorem validar_bandeira_comportamento_aplicacao :
    validar_bandeira "azul" = (false, "Bandeira inválida. Use: verde, amarela, vermelha") :=
  validar_bandeira_comportamento.2.1 "azul" (by decide)

/-- C8: on every valid input the fields of the returned `Resultado`
satisfy the aggregation equations: the subtotal is the left fold of the
line-item amounts, the tax base is subtotal plus surcharge, each tax entry
is the base times that tax's rate, the total tax is the sum of the
breakdown values, and the grand total is base plus total tax. -/
theorem faturamento_campos (c : ℚ) (b : String) (t : ℚ) (r : Resultado)
    (_hc : 0 ≤ c) (ht : List.lookup b BANDEIRAS = some t)
    (hr : calcular_faturamento c b = Except.ok r) :
    r.subtotal_consumo = List.foldl (fun acc it => acc + it.valor) 0 r.faixas
    ∧ r.base_impostos = r.subtotal_consumo + r.adicional_bandeira
    ∧ r.impostos = IMPOSTOS.map (fun p => (p.1, r.base_impostos * p.2))
    ∧ r.total_impostos = (r.impostos.map Prod.snd).sum
    ∧ r.total_final = r.base_impostos + r.total_impostos := by
  rw [faturamento_eq c b t ht] at hr
  injection hr with hr
  subst hr
  dsimp only
  refine ⟨?_, rfl, ?_, ?_, ?_⟩
  · rw [foldl_soma]
    simp [somaValor]
  · simp [calcular_impostos, calcular_imposto]
  · simp [calcular_impostos, IMPOSTOS, calcular_imposto]
    ring
  · ring

theorem faturamento_campos_aplicacao :
    resultado_250_verde.base_impostos
      = resultado_250_verde.subtotal_consumo + resultado_250_verde.adicional_bandeira :=
  (faturamento_campos 250 "verde" 0.0 resultado_250_verde (by norm_num) rfl
    faturamento_250_verde_nomeado).2.1

/-- C9: the parser replaces every comma by a dot before parsing: parsing
is invariant under that replacement, `"1,000"` is read as 1.0 (the comma
acts as a decimal separator, not a grouping mark) and `"1,2,3"` fails
with the invalid-format message. -/
theorem troca_virgula_comportamento :
    validar_numero_positivo "1,000" = (true, some 1, "")
    ∧ validar_numero_positivo "1,2,3" = (false, none, "Valor inválido. Digite um número válido")
    ∧ ∀ s : String, validar_numero_positivo (trocaVirgulaPorPonto s) = validar_numero_positivo s := by
  refine ⟨vnp_1000, vnp_123, fun s => ?_⟩
  unfold validar_numero_positivo
  rw [troca_idem]

/-- C10: for every fixed valid tier the grand total is monotone
non-decreasing in the consumption. -/
theorem total_final_monotono (b : String) (t : ℚ) (ht : List.lookup b BANDEIRAS = some t)
    (c1 c2 : ℚ) (h1 : 0 ≤ c1) (h12 : c1 ≤ c2) (r1 r2 : Resultado)
    (e1 : calcular_faturamento c1 b = Except.ok r1)
    (e2 : calcular_faturamento c2 b = Except.ok r2) :
    r1.total_final ≤ r2.total_final := by
  rw [faturamento_eq c1 b t ht] at e1
  rw [faturamento_eq c2 b t ht] at e2
  injection e1 with e1
  injection e2 with e2
  subst e1
  subst e2
  dsimp only
  have hs : somaValor (calcular_tarifacao_por_faixas c1)
      ≤ somaValor (calcular_tarifacao_por_faixas c2) := by
    unfold calcular_tarifacao_por_faixas
    exact somaValor_mono TARIFAS_FAIXAS tarifas_validas c1 c2 h1 h12
  have htn : 0 ≤ t := lookup_bandeiras_nonneg b t ht
  have hmul := mul_le_mul_of_nonneg_right hs htn
  have hbase : somaValor (calcular_tarifacao_por_faixas c1)
        + somaValor (calcular_tarifacao_por_faixas c1) * t
      ≤ somaValor (calcular_tarifacao_por_faixas c2)
        + somaValor (calcular_tarifacao_por_faixas c2) * t := by linarith
  exact mul_le_mul_of_nonneg_right hbase (by norm_num)

theorem total_final_monotono_aplicacao :
    resultado_0_verde.total_final ≤ resultado_250_verde.total_final :=
  total_final_monotono "verde" 0.0 rfl 0 250 (by norm_num) (by norm_num)
    resultado_0_verde resultado_250_verde faturamento_0_verde_nomeado faturamento_250_verde_nomeado
